import Mathlib

/-!
Verification development for the wuvt/dmca track-serving service.

The service exposes `GET /track/{uuid}.flac`; it looks the identifier up in
a catalog (IMPALA), fetches the object from an object store (MOSS), rewrites
a fixed set of vorbis-comment tags, and serves the result.  Two variants of
the handler exist in the sources: `main.go` (temp-file + external `metaflac`
rewrite) and the streaming FLAC-walker variant (`src/unnamed/part_002`).
Both are modelled below: byte streams are `List Nat` (each element one byte,
< 256 in all reachable states), and the effects of a handler are a list of
ordered events.
-/

namespace Dmca

/-- FLAC metadata block header (`BlockHeader` in the source): a last-block
flag, a 7-bit type (`uint8` in Go) and a 24-bit big-endian length
(`int64` in Go, always set from 24 parsed bits). -/
structure BlockHeader where
  lastBlock : Bool
  type : Nat
  length : Nat
deriving DecidableEq, Repr

/-- `parseBlockHeader` from the source: read 4 bytes from the stream and
unpack, most-significant-bit first, fields of 1, 7 and 24 bits
(`bit.NewReader(...).ReadFields(1, 7, 24)`), failing when fewer than 4 bytes
remain.  The remainder of the stream is returned alongside the header,
modelling the reader position. -/
def parseBlockHeader : List Nat → Option (BlockHeader × List Nat)
  | b0 :: b1 :: b2 :: b3 :: rest =>
      some ({ lastBlock := b0 / 128 == 1,
              type := b0 % 128,
              length := b1 * 65536 + b2 * 256 + b3 }, rest)
  | _ => none

/-- `BlockHeader.Marshal` from the source: pack
`[Type, byte(Length>>16), byte(Length>>8), byte(Length)]` and, when
`LastBlock` is set, xor the first byte with `0x80`. -/
def BlockHeader.Marshal (b : BlockHeader) : List Nat :=
  let t0 := b.type % 256
  [if b.lastBlock then Nat.xor t0 128 else t0,
   b.length / 65536 % 256, b.length / 256 % 256, b.length % 256]

/-- Xoring a number below 128 with 128 just sets the high bit. -/
lemma xor_128_of_lt (t : Nat) (h : t < 128) : Nat.xor t 128 = t + 128 := by
  have hall : ∀ x : Fin 128, Nat.xor x.val 128 = x.val + 128 := by decide
  exact hall ⟨t, h⟩

/-- Decoding any 4 in-range bytes and re-encoding the resulting header
reproduces the bytes, and the header's fields are in range. -/
lemma parse_then_marshal (b0 b1 b2 b3 : Nat) (rest : List Nat)
    (h0 : b0 < 256) (h1 : b1 < 256) (h2 : b2 < 256) (h3 : b3 < 256) :
    ∀ h tail, parseBlockHeader (b0 :: b1 :: b2 :: b3 :: rest) = some (h, tail) →
      h.type ≤ 127 ∧ h.length ≤ 16777215 ∧ h.Marshal = [b0, b1, b2, b3] ∧ tail = rest := by
  intro h tail hp
  simp only [parseBlockHeader, Option.some.injEq, Prod.mk.injEq] at hp
  obtain ⟨hh, ht⟩ := hp
  subst ht
  refine ⟨?_, ?_, ?_, rfl⟩
  · rw [← hh]; simp only; omega
  · rw [← hh]; simp only; omega
  · rw [← hh]
    simp only [BlockHeader.Marshal]
    have htype : b0 % 128 % 256 = b0 % 128 := by omega
    by_cases hb : b0 < 128
    · have hdiv : b0 / 128 = 0 := by omega
      simp only [hdiv, htype]
      norm_num
      refine ⟨by omega, by omega, by omega, by omega⟩
    · have hdiv : b0 / 128 = 1 := by omega
      simp only [hdiv, htype]
      norm_num
      rw [xor_128_of_lt (b0 % 128) (by omega)]
      refine ⟨by omega, by omega, by omega, by omega⟩

/-- Result of the metadata-block walking loop in the streaming handler
(`for { ... }` in `trackHandler` of the streaming variant): either the loop
reached a block with the last-block flag set (`ok written rest`, where
`written` are the bytes emitted by the loop and `rest` the unconsumed
stream), or a read error occurred (`ioError written`: the handler logs the
error and returns, after having already emitted `written`). -/
inductive WalkResult where
  | ok (written : List Nat) (rest : List Nat)
  | ioError (written : List Nat)
deriving DecidableEq, Repr

/-- One iteration of the block-walking loop, fuelled: parse a header (log
and stop on failure), emit the re-marshalled header, copy the declared body
length through (`io.CopyN` copies what is available and errors if the stream
is shorter than requested), and stop when the last-block flag was set.  The
fuel is the length of the stream; each iteration consumes at least 4 bytes,
so fuel 0 can only be reached on an empty stream, where the parse failure
branch coincides with the real behaviour. -/
def walkGo : Nat → List Nat → WalkResult
  | 0, _ => WalkResult.ioError []
  | fuel + 1, s =>
    match parseBlockHeader s with
    | none => WalkResult.ioError []
    | some (b, rest) =>
      let hdr := b.Marshal
      if b.length ≤ rest.length then
        let body := rest.take b.length
        let rest2 := rest.drop b.length
        if b.lastBlock then WalkResult.ok (hdr ++ body) rest2
        else
          match walkGo fuel rest2 with
          | WalkResult.ok w r => WalkResult.ok (hdr ++ body ++ w) r
          | WalkResult.ioError w => WalkResult.ioError (hdr ++ body ++ w)
      else WalkResult.ioError (hdr ++ rest)

/-- The block-walking loop of the streaming handler, applied to the byte
stream that follows the signature and the STREAMINFO block. -/
def walkBlocks (s : List Nat) : WalkResult := walkGo s.length s

/-- Client-visible output events of the streaming handler: an HTTP error
status (`http.Error` / `http.NotFound`) or a chunk of body bytes written
to the response. -/
inductive Out where
  | status (code : Nat)
  | chunk (bs : List Nat)
deriving DecidableEq, Repr

/-- The FLAC stream signature, `[]byte("fLaC")`. -/
def magic : List Nat := [102, 76, 97, 67]

/-- The streaming variant's `trackHandler`, from the point where the
object-store response is in hand.  `fetchOk` is false when `http.Get`
returned a non-200 status: the source then calls `http.Error` but — unlike
every other error branch — does not `return`, so execution falls through to
the signature check on the fetched body.  On a good signature the handler
writes the magic, blindly copies `0x26` bytes (STREAMINFO header + body;
`io.CopyN` emits the available prefix even when it then errors), runs the
block-walking loop, and finally copies the remaining bytes through. -/
def streamHandler (fetchOk : Bool) (body : List Nat) : List Out :=
  (if fetchOk then [] else [Out.status 500]) ++
    (if body.take 4 = magic then
      let s1 := body.drop 4
      Out.chunk magic :: Out.chunk (s1.take 38) ::
        (if 38 ≤ s1.length then
          match walkBlocks (s1.drop 38) with
          | WalkResult.ok w rest => [Out.chunk w, Out.chunk rest]
          | WalkResult.ioError w => [Out.chunk w]
        else [])
    else [Out.status 500])

/-- Concatenation of all body bytes in an output event list. -/
def outBytes : List Out → List Nat
  | [] => []
  | Out.status _ :: t => outBytes t
  | Out.chunk c :: t => c ++ outBytes t

/-- `TrackJSON` from the source: the catalog (IMPALA) record decoded for a
track.  Note that it carries no album and no label field. -/
structure TrackJSON where
  added_at : String
  added_by : String
  artist : String
  disc_num : Nat
  file_path : String
  has_fcc : String
  holding_id : String
  id : String
  recording_mbid : String
  title : String
  track_mbid : String
  track_num : Nat
deriving DecidableEq, Repr

/-- The tag lines `main.go` pipes into `metaflac --import-tags-from=-`:
`ARTIST` and `TITLE` from the catalog record, `ALBUM` and `LABEL` hardcoded
to "dmca test" (the source carries a FIXME to use catalog data there). -/
def metaflacStdin (t : TrackJSON) : List (String × String) :=
  [("ARTIST", t.artist), ("TITLE", t.title),
   ("ALBUM", "dmca test"), ("LABEL", "dmca test")]

/-- The tag names passed to `metaflac --remove-tag=` in `main.go`. -/
def removedTags : List String := ["ARTIST", "TITLE", "ALBUM", "LABEL"]

/-- ASCII upper-casing of a vorbis field name (field names are
case-insensitive ASCII tokens). -/
def upperName (s : String) : String := String.mk (s.data.map Char.toUpper)

/-- Effect of the `metaflac` command `main.go` runs, on the vorbis-comment
entries of the temp file.  Modelled from the command line in the source and
the tool's documented behaviour (external to this repository): every entry
whose field name matches one of the `--remove-tag` names (vorbis field
names are case-insensitive) is removed, then the entries read from stdin
are appended in order. -/
def metaflacRun (t : TrackJSON) (entries : List (String × String)) :
    List (String × String) :=
  entries.filter (fun e => !(removedTags.contains (upperName e.1))) ++ metaflacStdin t

/-- Decides the character class `[a-f0-9]` of the route pattern. -/
def isHexChar (c : Char) : Bool :=
  (97 ≤ c.toNat && c.toNat ≤ 102) || (48 ≤ c.toNat && c.toNat ≤ 57)

/-- Consume exactly `n` characters of the class `[a-f0-9]`. -/
def hexRun : Nat → List Char → Option (List Char)
  | 0, cs => some cs
  | _ + 1, [] => none
  | n + 1, c :: cs => if isHexChar c then hexRun n cs else none

/-- Consume an exact literal. -/
def stripLit : List Char → List Char → Option (List Char)
  | [], cs => some cs
  | _ :: _, [] => none
  | p :: ps, c :: cs => if c = p then stripLit ps cs else none

/-- Consume the 36-character hyphenated hex token of the route pattern,
`[a-f0-9]{8}-[a-f0-9]{4}-[a-f0-9]{4}-[a-f0-9]{4}-[a-f0-9]{12}`. -/
def matchUuid (cs : List Char) : Option (List Char) := do
  let cs ← hexRun 8 cs
  let cs ← stripLit ['-'] cs
  let cs ← hexRun 4 cs
  let cs ← stripLit ['-'] cs
  let cs ← hexRun 4 cs
  let cs ← stripLit ['-'] cs
  let cs ← hexRun 4 cs
  let cs ← stripLit ['-'] cs
  hexRun 12 cs

/-- The route match of `trackHandler`: the anchored pattern
`^/track/(?P<uuid>[a-f0-9]{8}-...-[a-f0-9]{12}).flac$` (the `.` before
`flac` is an unescaped regex dot, so it matches any single character).
Returns the captured 36-character identifier on success. -/
def extractTrackID (p : List Char) : Option (List Char) := do
  let cs ← stripLit "/track/".toList p
  let rest ← matchUuid cs
  match rest with
  | _ :: tail => if tail = "flac".toList then some (cs.take 36) else none
  | [] => none

/-- Result of `loadTrackInfo`, as `trackHandler` discriminates it: a
`TrackNotFoundError` (catalog answered 404), any other error (non-200
status, network or JSON failure), or the decoded record. -/
inductive CatalogResult where
  | notFound
  | fetchError
  | found (t : TrackJSON)
deriving DecidableEq, Repr

/-- Ordered effects of the `main.go` `trackHandler`: upstream calls, HTTP
statuses, the write of the fetched object into the temporary file, the
`metaflac` invocation (with the stdin tag lines), and the final
`http.ServeContent` of the rewritten temp file. -/
inductive MainEv where
  | catalogCall (id : List Char)
  | storeCall (holding path : String)
  | respond (code : Nat)
  | tempWrite (bs : List Nat)
  | runMetaflac (stdinTags : List (String × String))
  | serveFile
deriving DecidableEq, Repr

/-- The `main.go` `trackHandler`: reject non-GET methods, reject paths not
matching the route pattern, look the identifier up in the catalog
(not-found → `http.NotFound`, other failure → 500), fetch the object from
the store (`none` models `http.Get` error or non-200 status → 500, with
`return`), copy the entire fetched body into a temporary file, run
`metaflac` on that file, and serve the rewritten file (status 200).
Temp-file creation/copy/close and `metaflac` failures (all → 500) are not
modelled; the happy path of those OS calls is assumed. -/
def mainTrackHandler (method : String) (path : List Char)
    (catalog : CatalogResult) (store : Option (List Nat)) : List MainEv :=
  if method ≠ "GET" then [MainEv.respond 405]
  else
    match extractTrackID path with
    | none => [MainEv.respond 404]
    | some tid =>
      MainEv.catalogCall tid ::
        match catalog with
        | CatalogResult.notFound => [MainEv.respond 404]
        | CatalogResult.fetchError => [MainEv.respond 500]
        | CatalogResult.found t =>
          MainEv.storeCall t.holding_id t.file_path ::
            match store with
            | none => [MainEv.respond 500]
            | some body =>
              [MainEv.tempWrite body, MainEv.runMetaflac (metaflacStdin t),
               MainEv.respond 200, MainEv.serveFile]

/-- Unfolding of one iteration of the block-walking loop, given that the
header parse succeeds. -/
lemma walkGo_step (fuel : Nat) (s : List Nat) (b : BlockHeader) (rest : List Nat)
    (hp : parseBlockHeader s = some (b, rest)) :
    walkGo (fuel + 1) s =
      (if b.length ≤ rest.length then
        if b.lastBlock then
          WalkResult.ok (b.Marshal ++ rest.take b.length) (rest.drop b.length)
        else
          match walkGo fuel (rest.drop b.length) with
          | WalkResult.ok w r => WalkResult.ok (b.Marshal ++ rest.take b.length ++ w) r
          | WalkResult.ioError w => WalkResult.ioError (b.Marshal ++ rest.take b.length ++ w)
      else WalkResult.ioError (b.Marshal ++ rest)) := by
  simp only [walkGo, hp]

/-- Claim C3: the header codec decodes 4 bytes into a BlockHeader by
unpacking, most-significant-bit-first, a 1-bit lastBlock flag, a 7-bit
type, and a 24-bit big-endian length, and encodes a BlockHeader into
exactly 4 bytes in the same layout; for every BlockHeader with type at
most 126 and length at most 16777215, decoding the encoding returns the
same header. -/
theorem codec_roundtrip (h : BlockHeader) (rest : List Nat)
    (ht : h.type ≤ 126) (hl : h.length ≤ 16777215) :
    h.Marshal.length = 4 ∧ parseBlockHeader (h.Marshal ++ rest) = some (h, rest) := by
  obtain ⟨lb, ty, len⟩ := h
  simp only [BlockHeader.Marshal] at *
  refine ⟨by simp, ?_⟩
  cases lb
  · simp only [Bool.false_eq_true, if_false, List.cons_append, List.nil_append,
      parseBlockHeader, Option.some.injEq, Prod.mk.injEq, BlockHeader.mk.injEq]
    have e1 : ty % 256 = ty := by omega
    refine ⟨⟨?_, ?_, ?_⟩, trivial⟩
    · rw [e1]
      have e2 : ty / 128 = 0 := by omega
      rw [e2]; rfl
    · omega
    · omega
  · simp only [if_true, List.cons_append, List.nil_append,
      parseBlockHeader, Option.some.injEq, Prod.mk.injEq, BlockHeader.mk.injEq]
    have e1 : ty % 256 = ty := by omega
    rw [e1, xor_128_of_lt ty (by omega)]
    refine ⟨⟨?_, ?_, ?_⟩, trivial⟩
    · have e2 : (ty + 128) / 128 = 1 := by omega
      rw [e2]; rfl
    · omega
    · omega

/-- Witness for C3 at a concrete header. -/
theorem codec_roundtrip_witness :
    (BlockHeader.mk true 4 300).type ≤ 126 ∧ (BlockHeader.mk true 4 300).length ≤ 16777215 ∧
      ((BlockHeader.mk true 4 300).Marshal.length = 4 ∧
        parseBlockHeader ((BlockHeader.mk true 4 300).Marshal ++ [7]) =
          some (BlockHeader.mk true 4 300, [7])) :=
  ⟨by decide, by decide, codec_roundtrip (BlockHeader.mk true 4 300) [7] (by decide) (by decide)⟩

/-- Claim C10: for every 4-byte input on which parseBlockHeader succeeds,
the resulting BlockHeader satisfies type ≤ 127 and length ≤ 16777215, and
Marshal applied to that header reproduces exactly the 4 input bytes, so
every passed-through block's re-emitted header is byte-identical to its
input header. -/
theorem header_decode_encode_identity (b0 b1 b2 b3 : Nat) (rest : List Nat)
    (h0 : b0 < 256) (h1 : b1 < 256) (h2 : b2 < 256) (h3 : b3 < 256) :
    ∀ h tail, parseBlockHeader (b0 :: b1 :: b2 :: b3 :: rest) = some (h, tail) →
      h.type ≤ 127 ∧ h.length ≤ 16777215 ∧ h.Marshal = [b0, b1, b2, b3] := by
  intro h tail hp
  obtain ⟨a, b, c, _⟩ := parse_then_marshal b0 b1 b2 b3 rest h0 h1 h2 h3 h tail hp
  exact ⟨a, b, c⟩

/-- Witness for C10 at the concrete bytes 0x81 00 00 02. -/
theorem header_decode_encode_identity_witness :
    (BlockHeader.mk true 1 2).type ≤ 127 ∧ (BlockHeader.mk true 1 2).length ≤ 16777215 ∧
      (BlockHeader.mk true 1 2).Marshal = [129, 0, 0, 2] :=
  header_decode_encode_identity 129 0 0 2 [] (by decide) (by decide) (by decide) (by decide)
    (BlockHeader.mk true 1 2) [] rfl

/-- Claim C7, counterexample: a block whose decoded header has type 127 is
not rejected by the walker; it is forwarded verbatim and the walk succeeds.
-/
theorem type127_forwarded_counterexample :
    parseBlockHeader [255, 0, 0, 1, 5] = some (BlockHeader.mk true 127 1, [5]) ∧
      walkBlocks [255, 0, 0, 1, 5] = WalkResult.ok [255, 0, 0, 1, 5] [] := by decide

/-- Claim C7 as amended: a decoded header with type 127 is forwarded
verbatim like any other block (the walker performs no type validation),
and a block whose declared length exceeds the remaining bytes of the
stream makes the walk fail with an I/O error after forwarding the header
and the available bytes, rather than completing silently. -/
theorem walker_passthrough_and_overlength :
    (∀ b1 b2 b3 rest, b1 < 256 → b2 < 256 → b3 < 256 →
      b1 * 65536 + b2 * 256 + b3 ≤ List.length rest →
      walkBlocks (255 :: b1 :: b2 :: b3 :: rest) =
        WalkResult.ok ([255, b1, b2, b3] ++ rest.take (b1 * 65536 + b2 * 256 + b3))
          (rest.drop (b1 * 65536 + b2 * 256 + b3))) ∧
    (∀ b0 b1 b2 b3 rest, b0 < 256 → b1 < 256 → b2 < 256 → b3 < 256 →
      List.length rest < b1 * 65536 + b2 * 256 + b3 →
      walkBlocks (b0 :: b1 :: b2 :: b3 :: rest) =
        WalkResult.ioError ([b0, b1, b2, b3] ++ rest)) := by
  constructor
  · intro b1 b2 b3 rest hb1 hb2 hb3 hlen
    have hp : parseBlockHeader (255 :: b1 :: b2 :: b3 :: rest) =
        some (BlockHeader.mk true 127 (b1 * 65536 + b2 * 256 + b3), rest) := rfl
    have hm : (BlockHeader.mk true 127 (b1 * 65536 + b2 * 256 + b3)).Marshal =
        [255, b1, b2, b3] :=
      (parse_then_marshal 255 b1 b2 b3 rest (by omega) hb1 hb2 hb3 _ _ hp).2.2.1
    show walkGo (255 :: b1 :: b2 :: b3 :: rest).length (255 :: b1 :: b2 :: b3 :: rest) = _
    simp only [List.length_cons]
    rw [walkGo_step _ _ _ _ hp]
    rw [if_pos (show (BlockHeader.mk true 127 (b1 * 65536 + b2 * 256 + b3)).length ≤
      rest.length from hlen)]
    rw [if_pos (show (BlockHeader.mk true 127 (b1 * 65536 + b2 * 256 + b3)).lastBlock = true
      from rfl)]
    rw [hm]
  · intro b0 b1 b2 b3 rest hb0 hb1 hb2 hb3 hlen
    have hp : parseBlockHeader (b0 :: b1 :: b2 :: b3 :: rest) =
        some (BlockHeader.mk (b0 / 128 == 1) (b0 % 128) (b1 * 65536 + b2 * 256 + b3), rest) :=
      rfl
    have hm : (BlockHeader.mk (b0 / 128 == 1) (b0 % 128)
        (b1 * 65536 + b2 * 256 + b3)).Marshal = [b0, b1, b2, b3] :=
      (parse_then_marshal b0 b1 b2 b3 rest hb0 hb1 hb2 hb3 _ _ hp).2.2.1
    show walkGo (b0 :: b1 :: b2 :: b3 :: rest).length (b0 :: b1 :: b2 :: b3 :: rest) = _
    simp only [List.length_cons]
    rw [walkGo_step _ _ _ _ hp]
    rw [if_neg (show ¬ (BlockHeader.mk (b0 / 128 == 1) (b0 % 128)
      (b1 * 65536 + b2 * 256 + b3)).length ≤ rest.length from by
        simp only [BlockHeader.length]; omega)]
    rw [hm]

/-- Witness for the amended C7: a type-127 block with enough bytes is
forwarded, a block declaring 5 body bytes over a 1-byte remainder fails. -/
theorem walker_passthrough_and_overlength_witness :
    walkBlocks [255, 0, 0, 1, 7, 8] =
      WalkResult.ok ([255, 0, 0, 1] ++ [7, 8].take 1) ([7, 8].drop 1) ∧
    walkBlocks [3, 0, 0, 5, 1] = WalkResult.ioError ([3, 0, 0, 5] ++ [1]) :=
  ⟨walker_passthrough_and_overlength.1 0 0 1 [7, 8]
      (by decide) (by decide) (by decide) (by decide),
    walker_passthrough_and_overlength.2 3 0 0 5 [1]
      (by decide) (by decide) (by decide) (by decide) (by decide)⟩

/-- The streaming handler on a successfully fetched body with a good
signature, in unfolded form. -/
lemma streamHandler_ok (rest : List Nat) :
    streamHandler true (magic ++ rest) =
      Out.chunk magic :: Out.chunk (rest.take 38) ::
        (if 38 ≤ rest.length then
          match walkBlocks (rest.drop 38) with
          | WalkResult.ok w r => [Out.chunk w, Out.chunk r]
          | WalkResult.ioError w => [Out.chunk w]
        else []) := rfl

/-- `outBytes` unfolding on a chunk. -/
lemma outBytes_chunk (c : List Nat) (t : List Out) :
    outBytes (Out.chunk c :: t) = c ++ outBytes t := rfl

/-- Claim C2, evaluated at the failing input: for a valid container whose
metadata-block sequence contains no TAGS block (signature, STREAMINFO, one
PADDING block with the lastBlock flag set, then audio frames), the emitted
output is byte-identical to the input — no TAGS block is synthesized before
the audio-frame region. -/
theorem no_tags_synthesis_on_missing_tags_block :
    streamHandler true
        (magic ++ ([0, 0, 0, 34] ++ List.replicate 34 0) ++ [129, 0, 0, 2, 0, 0] ++ [9, 9, 9]) =
      [Out.chunk magic, Out.chunk ([0, 0, 0, 34] ++ List.replicate 34 0),
        Out.chunk [129, 0, 0, 2, 0, 0], Out.chunk [9, 9, 9]] ∧
    outBytes (streamHandler true
        (magic ++ ([0, 0, 0, 34] ++ List.replicate 34 0) ++ [129, 0, 0, 2, 0, 0] ++ [9, 9, 9])) =
      magic ++ ([0, 0, 0, 34] ++ List.replicate 34 0) ++ [129, 0, 0, 2, 0, 0] ++ [9, 9, 9] := by
  decide

/-- Claim C5, evaluated at the failing input: when the object-store fetch
returns a non-success status, the handler writes the error status but then
falls through (the source's only error branch without a `return`) and keeps
processing the fetched body; when that body happens to be a valid
container, container bytes are streamed after the error status instead of
the request terminating. -/
theorem error_status_then_streaming_continues :
    streamHandler false
        (magic ++ ([0, 0, 0, 34] ++ List.replicate 34 0) ++ [129, 0, 0, 1, 7] ++ [8, 8]) =
      [Out.status 500, Out.chunk magic, Out.chunk ([0, 0, 0, 34] ++ List.replicate 34 0),
        Out.chunk [129, 0, 0, 1, 7], Out.chunk [8, 8]] := by
  decide

/-- Claim C6: for every input stream whose first 4 bytes differ from the
magic constant (in particular any stream shorter than 4 bytes), the
handler reports an error status and writes zero body bytes. -/
theorem bad_signature_no_output (body : List Nat) (h : body.take 4 ≠ magic) :
    streamHandler true body = [Out.status 500] ∧
      outBytes (streamHandler true body) = [] := by
  have e : streamHandler true body = [Out.status 500] := by
    simp [streamHandler, h]
  exact ⟨e, by rw [e]; rfl⟩

/-- Witness for C6 at a 3-byte stream. -/
theorem bad_signature_no_output_witness :
    streamHandler true [0, 1, 2] = [Out.status 500] ∧
      outBytes (streamHandler true [0, 1, 2]) = [] :=
  bad_signature_no_output [0, 1, 2] (by decide)

/-- Claim C8: for every valid container (any byte stream with the correct
signature), the 38 bytes following the signature — the FIXED_INFO
(STREAMINFO) block's 4-byte header plus its fixed 34-byte body — are
copied to the output byte-for-byte unchanged, whatever their content. -/
theorem fixed_info_copied_verbatim (rest : List Nat) (h : 38 ≤ rest.length) :
    (outBytes (streamHandler true (magic ++ rest))).take 42 = magic ++ rest.take 38 := by
  rw [streamHandler_ok, outBytes_chunk, outBytes_chunk, ← List.append_assoc]
  have hlen : (magic ++ rest.take 38).length = 42 := by
    simp only [magic, List.length_append, List.length_take, List.length_cons,
      List.length_nil]
    omega
  rw [← hlen, List.take_left]

/-- Witness for C8 at a concrete 40-byte remainder. -/
theorem fixed_info_copied_verbatim_witness :
    (outBytes (streamHandler true (magic ++ List.replicate 40 7))).take 42 =
      magic ++ (List.replicate 40 7).take 38 :=
  fixed_info_copied_verbatim (List.replicate 40 7) (by decide)

/-- Entries surviving the `--remove-tag` pass never match a protected key:
filtering the survivors by a removed key yields nothing. -/
lemma filter_removed_key_nil (entries : List (String × String)) (K : String)
    (hK : removedTags.contains K = true) :
    (entries.filter (fun e => !(removedTags.contains (upperName e.1)))).filter
        (fun e => upperName e.1 == K) = [] := by
  rw [List.filter_filter]
  apply List.filter_eq_nil_iff.mpr
  intro a _
  by_cases hq : upperName a.1 = K
  · rw [hq, hK]
    simp
  · have hb : (upperName a.1 == K) = false := beq_eq_false_iff_ne.mpr hq
    rw [hb]
    simp

/-- Claim C1, evaluated on the code: whatever the catalog record and
whatever tags the source file carried, the served file's ALBUM and LABEL
entries are exactly the hardcoded constant "dmca test" — not values
obtained from the catalog metadata (whose record carries no album or label
field at all). -/
theorem tags_album_label_constant :
    ∀ (t : TrackJSON) (entries : List (String × String)),
      (metaflacRun t entries).filter (fun e => upperName e.1 == "ALBUM") =
          [("ALBUM", "dmca test")] ∧
      (metaflacRun t entries).filter (fun e => upperName e.1 == "LABEL") =
          [("LABEL", "dmca test")] := by
  intro t entries
  constructor
  · rw [metaflacRun, List.filter_append,
      filter_removed_key_nil entries "ALBUM" (by decide), List.nil_append]
    have e1 : (upperName "ARTIST" == "ALBUM") = false := by decide
    have e2 : (upperName "TITLE" == "ALBUM") = false := by decide
    have e3 : (upperName "ALBUM" == "ALBUM") = true := by decide
    have e4 : (upperName "LABEL" == "ALBUM") = false := by decide
    simp [metaflacStdin, List.filter_cons, e1, e2, e3, e4]
  · rw [metaflacRun, List.filter_append,
      filter_removed_key_nil entries "LABEL" (by decide), List.nil_append]
    have e1 : (upperName "ARTIST" == "LABEL") = false := by decide
    have e2 : (upperName "TITLE" == "LABEL") = false := by decide
    have e3 : (upperName "ALBUM" == "LABEL") = false := by decide
    have e4 : (upperName "LABEL" == "LABEL") = true := by decide
    simp [metaflacStdin, List.filter_cons, e1, e2, e3, e4]

/-- Claim C4, counterexample: a happy-path request in which the handler's
event trace contains the write of the entire fetched object into the
temporary file — the full object is materialized on disk before the
rewrite runs and before any body byte is served. -/
theorem full_object_buffered_counterexample :
    mainTrackHandler "GET" "/track/01234567-89ab-cdef-0123-456789abcdef.flac".toList
        (CatalogResult.found (TrackJSON.mk "" "" "A" 0 "p" "" "h" "id" "" "T" "" 0))
        (some [1, 2, 3, 4, 5]) =
      [MainEv.catalogCall "01234567-89ab-cdef-0123-456789abcdef".toList,
        MainEv.storeCall "h" "p",
        MainEv.tempWrite [1, 2, 3, 4, 5],
        MainEv.runMetaflac
          [("ARTIST", "A"), ("TITLE", "T"), ("ALBUM", "dmca test"), ("LABEL", "dmca test")],
        MainEv.respond 200, MainEv.serveFile] := by
  decide

/-- Claim C4 as amended: the tag substitution is performed on a complete
on-disk copy of the object — for every happy-path request the handler
first writes the entire fetched body into the temporary file, then runs
the external rewriter on that file, and only then serves the rewritten
file; the substitution is not performed while the file is in transit. -/
theorem temp_file_pipeline (t : TrackJSON) (body : List Nat) (path : List Char)
    (tid : List Char) (h : extractTrackID path = some tid) :
    mainTrackHandler "GET" path (CatalogResult.found t) (some body) =
      [MainEv.catalogCall tid, MainEv.storeCall t.holding_id t.file_path,
        MainEv.tempWrite body, MainEv.runMetaflac (metaflacStdin t),
        MainEv.respond 200, MainEv.serveFile] := by
  simp [mainTrackHandler, h]

/-- Witness for the amended C4 at a concrete request. -/
theorem temp_file_pipeline_witness :
    mainTrackHandler "GET" "/track/01234567-89ab-cdef-0123-456789abcdef.flac".toList
        (CatalogResult.found (TrackJSON.mk "" "" "B" 0 "q" "" "g" "id2" "" "U" "" 0))
        (some [5, 6, 7]) =
      [MainEv.catalogCall "01234567-89ab-cdef-0123-456789abcdef".toList,
        MainEv.storeCall "g" "q", MainEv.tempWrite [5, 6, 7],
        MainEv.runMetaflac (metaflacStdin (TrackJSON.mk "" "" "B" 0 "q" "" "g" "id2" "" "U" "" 0)),
        MainEv.respond 200, MainEv.serveFile] :=
  temp_file_pipeline (TrackJSON.mk "" "" "B" 0 "q" "" "g" "id2" "" "U" "" 0) [5, 6, 7]
    "/track/01234567-89ab-cdef-0123-456789abcdef.flac".toList
    "01234567-89ab-cdef-0123-456789abcdef".toList rfl

/-- Claim C9: a non-GET method receives method-not-allowed and a path not
matching the canonical identifier pattern receives not-found, in both
cases with no upstream call in the event trace; a well-formed identifier
whose catalog lookup reports not-found receives a not-found status after
only the catalog call, with no body bytes written. -/
theorem request_validation :
    (∀ method path catalog store, method ≠ "GET" →
      mainTrackHandler method path catalog store = [MainEv.respond 405]) ∧
    (∀ path catalog store, extractTrackID path = none →
      mainTrackHandler "GET" path catalog store = [MainEv.respond 404]) ∧
    (∀ path tid store, extractTrackID path = some tid →
      mainTrackHandler "GET" path CatalogResult.notFound store =
        [MainEv.catalogCall tid, MainEv.respond 404]) := by
  refine ⟨?_, ?_, ?_⟩
  · intro method path catalog store h
    simp [mainTrackHandler, h]
  · intro path catalog store h
    simp [mainTrackHandler, h]
  · intro path tid store h
    simp [mainTrackHandler, h]

/-- Witness for C9 at a concrete not-found request. -/
theorem request_validation_witness :
    mainTrackHandler "GET" "/track/fedcba98-7654-3210-fedc-ba9876543210.flac".toList
        CatalogResult.notFound none =
      [MainEv.catalogCall "fedcba98-7654-3210-fedc-ba9876543210".toList,
        MainEv.respond 404] :=
  request_validation.2.2 "/track/fedcba98-7654-3210-fedc-ba9876543210.flac".toList
    "fedcba98-7654-3210-fedc-ba9876543210".toList none rfl

end Dmca
